import Mathlib

/-!
Verification of the ingestion-and-retrieval core of the `langchain-mcp`
RAG pipeline.

The development shallowly embeds the Python sources:
  * `langchain_mcp/vector_store/vector.py`  (`DocumentVectorizer`)
  * `langchain_mcp/context/web_context.py`  (`WebContext`)
  * `langchain_mcp/context/pdf_context.py`  (`PdfContext`)

External collaborators (the Chroma vector store, the Ollama embedding
model, the web scraper, the PDF extractor, the SQLite connection and the
LLM) are passed in as explicit function parameters; the observable calls
made to them are recorded in explicit state/trace records.  Python
exceptions are modelled with `Except`; Python truthiness of lists,
strings and `None` is modelled explicitly where the source relies on it.
-/

/-- Metadata mapping attached to a document (Python `dict[str, str]`,
modelled as an association list). -/
abbrev Meta := List (String × String)

/-- `langchain_core.documents.Document`: a piece of text plus metadata.
Field names follow the library (`page_content`, `metadata`). -/
structure Document where
  page_content : String
  metadata : Meta
deriving DecidableEq

/-- Python exceptions raised by the embedded code. -/
inductive PyErr where
  | valueError (msg : String)
  | nameError (name : String)
deriving DecidableEq

deriving instance DecidableEq for Except

/-- A string that is empty or consists only of whitespace — the texts
Python's `str.strip()` sends to `""`. -/
def isWhitespaceOnly (s : String) : Bool :=
  s.data.all Char.isWhitespace

/-- Observable state of the backing vector store (`self.db`, a Chroma
handle): the chunks appended so far, the log of `add_documents` calls
(one entry per call, holding the batch passed), and the number of
`persist()` calls. -/
structure VStore where
  stored : List Document
  calls : List (List Document)
  persists : Nat
deriving DecidableEq

/-- Behaviour of the external `db.add_documents` collaborator: given the
index of the call (0-based, over the life of the store handle) and the
batch, it either returns a list of record ids or raises. -/
abbrev StoreFn := Nat → List Document → Except PyErr (List String)

/-- The consecutive slices `documents[i : i + bs]` for
`i in range(0, len(documents), bs)` (`vector.py` line 89-90), for a
positive step `bs`.  (`(x :: xs).drop bs = xs.drop (bs - 1)` for
`bs ≥ 1`; the latter form makes termination evident.) -/
def sliceBatches (bs : Nat) : List α → List (List α)
  | [] => []
  | x :: xs => (x :: xs).take bs :: sliceBatches bs (xs.drop (bs - 1))
termination_by l => l.length
decreasing_by simp [List.length_drop]; omega

/-- Run the per-batch persistence loop (`vector.py` lines 89-105): call
`db.add_documents` on each batch in order, extending `all_ids`; a raise
aborts the loop and propagates (the `except` clause re-raises).  The
returned `VStore` reflects the calls actually issued and the batches
actually committed. -/
def runBatches (store : StoreFn) (st : VStore) : List (List Document) → VStore × Except PyErr (List String)
  | [] => (st, .ok [])
  | b :: bs =>
    match store st.calls.length b with
    | .error e => ({ st with calls := st.calls ++ [b] }, .error e)
    | .ok ids =>
      let st1 : VStore := { st with stored := st.stored ++ b, calls := st.calls ++ [b] }
      match runBatches store st1 bs with
      | (st2, .error e) => (st2, .error e)
      | (st2, .ok rest) => (st2, .ok (ids ++ rest))

/-- `DocumentVectorizer._add_documents_in_batches` (`vector.py` lines
65-107): one direct call when everything fits in a single batch,
otherwise the sequential batch loop over the `range(0, total, bs)`
slices.  (Python `range` with step 0 raises `ValueError`.) -/
def addDocumentsInBatches (batchSize : Nat) (store : StoreFn) (st : VStore) (documents : List Document) : VStore × Except PyErr (List String) :=
  if documents.length ≤ batchSize then
    runBatches store st [documents]
  else if batchSize = 0 then
    (st, .error (.valueError "range() arg 3 must not be zero"))
  else
    runBatches store st (sliceBatches batchSize documents)

/-- The batches `_add_documents_in_batches` submits for a given input:
the whole list when it fits, else the `range`-loop slices. -/
def pyBatches (batchSize : Nat) (documents : List Document) : List (List Document) :=
  if documents.length ≤ batchSize then [documents] else sliceBatches batchSize documents

/-- Concatenation of the ids returned by a (pure, never-failing) store
behaviour `ids` over successive calls starting at call index `k`. -/
def batchIds (ids : Nat → List Document → List String) : Nat → List (List Document) → List String
  | _, [] => []
  | k, b :: bs => ids k b ++ batchIds ids (k + 1) bs

/-- Constructor configuration of `DocumentVectorizer` (`vector.py` lines
10-54), with the source's default values. -/
structure VectorizerCfg where
  chunk_size : Nat := 500
  chunk_overlap : Nat := 200
  batch_size : Nat := 5000
  sqlite_path : Option String := none
  content_column : Option String := none
  metadata_columns : List String := []

/-- The configuration a bare `DocumentVectorizer(db_path=...)` call gets
(as constructed by `WebContext` and `PdfContext`). -/
def defaultCfg : VectorizerCfg := {}

/-- Modelled from the spec: `RecursiveCharacterTextSplitter.split_text`
(the `langchain_text_splitters` collaborator is not part of this
repository).  Per spec §4.1 and §8: empty or whitespace-only text yields
zero chunks; a non-empty text within the `chunk_size` budget yields
exactly one chunk equal to the text; longer text is split into
consecutive segments within the budget (the separator-preference and
overlap refinements of the long branch are best-effort and not needed by
any claim). -/
def splitText (chunkSize : Nat) (text : String) : List String :=
  if isWhitespaceOnly text then []
  else if text.length ≤ chunkSize then [text]
  else (sliceBatches chunkSize text.data).map (fun cs => String.mk cs)

/-- `split_documents`: split every document's content, copying its
metadata unchanged onto each resulting chunk (spec §4.1). -/
def splitDocuments (cfg : VectorizerCfg) (documents : List Document) : List Document :=
  documents.flatMap (fun d => (splitText cfg.chunk_size d.page_content).map (fun c => ⟨c, d.metadata⟩))

/-- `DocumentVectorizer.process_text` (`vector.py` lines 109-128): wrap
the text as one `Document` with `metadata or {}`, then split it. -/
def process_text (cfg : VectorizerCfg) (text : String) (metadata : Option Meta) : List Document :=
  let doc : Document := ⟨text, metadata.getD []⟩
  splitDocuments cfg [doc]

/-- `DocumentVectorizer.add_documents` (`vector.py` lines 154-173):
chunk the documents, persist the chunks in batches, then `db.persist()`
(counted in the store state) and return the ids. -/
def add_documents (cfg : VectorizerCfg) (store : StoreFn) (st : VStore) (documents : List Document) : VStore × Except PyErr (List String) :=
  let chunks := splitDocuments cfg documents
  match addDocumentsInBatches cfg.batch_size store st chunks with
  | (st1, .error e) => (st1, .error e)
  | (st1, .ok ids) => ({ st1 with persists := st1.persists + 1 }, .ok ids)

/-- Python truthiness of an optional list: `None` and `[]` are falsy. -/
def pyTruthyList : Option (List α) → Bool
  | none => false
  | some l => !l.isEmpty

/-- `DocumentVectorizer.add_texts` (`vector.py` lines 175-197).  The
guard is `if metadatas and len(metadatas) != len(texts)`, so an empty
`metadatas` list is treated like `None`.  In the non-raising branch the
loop reads `metadatas[i] if metadatas else {}`; when `metadatas` is
truthy the guard has ensured equal lengths, so the indexed loop is
exactly a zip. -/
def add_texts (cfg : VectorizerCfg) (store : StoreFn) (st : VStore) (texts : List String) (metadatas : Option (List Meta)) : VStore × Except PyErr (List String) :=
  if pyTruthyList metadatas && (metadatas.getD []).length != texts.length then
    (st, .error (.valueError "Length of metadatas must match length of texts"))
  else
    let documents :=
      if pyTruthyList metadatas then
        (texts.zip (metadatas.getD [])).map (fun p => (⟨p.1, p.2⟩ : Document))
      else
        texts.map (fun t => (⟨t, []⟩ : Document))
    add_documents cfg store st documents

/-- Python truthiness of an optional string attribute: `None` and the
empty string are falsy (`if not self.sqlite_path`). -/
def pyFalsyOptStr : Option String → Bool
  | none => true
  | some s => s == ""

/-- Trace of the calls `ingest_from_sqlite` makes on the relational
store: how many connections were opened and how many
`execute`/`fetchall` queries ran. -/
structure DBTrace where
  opens : Nat
  fetches : Nat
deriving DecidableEq

/-- The rows of the source table whose content column (`row[0]`) is
truthy, paired with their `zip(metadata_columns, row[1:])` metadata —
the rows `ingest_from_sqlite` keeps (`vector.py` lines 265-273). -/
def keptRows (cfg : VectorizerCfg) (rows : List (List String)) : List (String × Meta) :=
  rows.filterMap (fun row =>
    if row.getD 0 "" ≠ "" then some (row.getD 0 "", cfg.metadata_columns.zip row.tail) else none)

/-- `DocumentVectorizer.ingest_from_sqlite` (`vector.py` lines 237-282).
The SQLite connection is abstracted as `fetchRows`, mapping a table name
and selected column list to the fetched rows (content column first,
then the metadata columns).  The configuration checks run before any
connection is opened; rows with falsy content are dropped; if nothing
remains the call returns `[]` without vectorizing, otherwise it
delegates to `add_texts`. -/
def ingest_from_sqlite (cfg : VectorizerCfg) (store : StoreFn) (st : VStore) (fetchRows : String → List String → List (List String)) (table_name : String) : DBTrace × VStore × Except PyErr (List String) :=
  if pyFalsyOptStr cfg.sqlite_path then
    (⟨0, 0⟩, st, .error (.valueError "SQLite path is not set."))
  else if pyFalsyOptStr cfg.content_column then
    (⟨0, 0⟩, st, .error (.valueError "Content column must be specified."))
  else
    let selected_columns := cfg.content_column.getD "" :: cfg.metadata_columns
    let rows := fetchRows table_name selected_columns
    let kept := keptRows cfg rows
    let texts := kept.map Prod.fst
    let metadatas := kept.map Prod.snd
    if texts.isEmpty then
      (⟨1, 1⟩, st, .ok [])
    else
      let (st1, r) := add_texts cfg store st texts (some metadatas)
      (⟨1, 1⟩, st1, r)

/-- `hashlib.sha256(identifier.encode()).hexdigest()[:16]`.  The SHA-256
hex digest itself is the `hashlib` collaborator, abstracted as
`sha256hex`; the code keeps its first 16 hex characters. -/
def cacheDigest (sha256hex : String → String) (identifier : String) : String :=
  (sha256hex identifier).take 16

/-- `os.path.join(base, name)` for a non-empty relative `name`, as used
with the hash digest: concatenation with a single separator. -/
def osPathJoin (base name : String) : String :=
  base ++ "/" ++ name

/-- `WebContext.__init__` lines 34-35: the per-URL vector-store
directory `os.path.join(base_db_dir, sha256(url)[:16])`. -/
def WebContext.db_path (sha256hex : String → String) (base_db_dir url : String) : String :=
  osPathJoin base_db_dir (cacheDigest sha256hex url)

/-- `PdfContext.__init__` lines 28-29: the per-source vector-store
directory `os.path.join(base_db_dir, sha256(source)[:16])` (the
denotation of the expression; its evaluation is a separate matter, see
`pdfInit`). -/
def PdfContext.db_path (sha256hex : String → String) (base_db_dir source : String) : String :=
  osPathJoin base_db_dir (cacheDigest sha256hex source)

/-- Directory state: `none` when the path does not exist, otherwise the
entry names `os.listdir` would return. -/
abbrev FileSys := String → Option (List String)

/-- `os.path.exists(p) and os.listdir(p)` — the cache-hit test of both
contexts: the directory exists and is non-empty. -/
def dirNonEmpty (fs : FileSys) (p : String) : Bool :=
  match fs p with
  | none => false
  | some entries => !entries.isEmpty

/-- `os.makedirs(p, exist_ok=True)` (run by `DocumentVectorizer.
_init_vector_db`): create the directory if absent, leave it otherwise. -/
def makedirs (fs : FileSys) (p : String) : FileSys :=
  fun q => if q = p then some ((fs p).getD []) else fs q

/-- Result of `scraper.scrape(url)` (`readers/scraper.py` line 98-109):
`{"success": ..., "text": ..., "metadata": ...}`. -/
structure ScrapeResult where
  success : Bool
  text : String
  metadata : Meta

/-- Outcome of running `WebContext.__init__`: the final directory
state, the vector-store state, how many times the scraper was invoked,
and whether the constructor returned or raised. -/
structure WebInitResult where
  fs : FileSys
  vs : VStore
  scrapes : Nat
  outcome : Except PyErr Unit

/-- `WebContext.__init__` plus `vectorize_and_store`
(`web_context.py` lines 12-57).  The cache-hit test runs before the
`DocumentVectorizer` is constructed (which runs `makedirs`); on a miss
(or `force_rescrape`) the scraper runs, empty text raises
`ValueError("No content available to vectorize.")`, otherwise the text
is chunked and persisted.  That a successful persist leaves the cache
directory non-empty is the Chroma collaborator's behaviour — modelled
from the spec: a cache entry is "created on first ingestion of a
source" (spec §3, §4.4). -/
def webInit (cfg : VectorizerCfg) (sha256hex : String → String) (scrape : String → ScrapeResult) (store : StoreFn) (url base_db_dir : String) (force_rescrape : Bool) (fs : FileSys) (vs : VStore) : WebInitResult :=
  let dbPath := WebContext.db_path sha256hex base_db_dir url
  let dbExists := dirNonEmpty fs dbPath
  let fs1 := makedirs fs dbPath
  if force_rescrape || !dbExists then
    let content := scrape url
    if content.text = "" then
      { fs := fs1, vs := vs, scrapes := 1, outcome := .error (.valueError "No content available to vectorize.") }
    else
      let chunks := process_text cfg content.text none
      match add_documents cfg store vs chunks with
      | (vs1, .error e) => { fs := fs1, vs := vs1, scrapes := 1, outcome := .error e }
      | (vs1, .ok _) =>
        { fs := fun p => if p = dbPath then some ["chroma.sqlite3"] else fs1 p,
          vs := vs1, scrapes := 1, outcome := .ok () }
  else
    { fs := fs1, vs := vs, scrapes := 0, outcome := .ok () }

/-- The names `pdf_context.py` imports at module level (its lines 1-7).
`os` is not among them, and `os` is not a Python builtin. -/
def pdfContextImports : List String :=
  ["Optional", "hashlib", "OllamaLLM", "PDFTextExtractor",
   "SummaryGenerator", "DocumentVectorizer", "ChatPromptTemplate"]

/-- Outcome of running `PdfContext.__init__`: whether it returned or
raised, the directory and vector-store state, and how many
cache-existence checks and `extract_text` calls ran. -/
structure PdfInitResult where
  outcome : Except PyErr Unit
  fs : FileSys
  vs : VStore
  cacheChecks : Nat
  extracts : Nat

/-- `PdfContext.__init__` (`pdf_context.py` lines 11-48).  Line 28
computes the hash (`hashlib` is imported); line 29 evaluates
`os.path.join(...)`, and name resolution of `os` fails —
the module never imports it — raising `NameError` before the
cache-existence check (line 31), the `DocumentVectorizer` construction
(line 33) and the extraction (lines 38-45).  The `then` branch below is
the translation of those subsequent lines, reachable only if `os`
resolved. -/
def pdfInit (sha256hex : String → String) (extract : String → String) (store : StoreFn) (source base_db_dir : String) (fs : FileSys) (vs : VStore) : PdfInitResult :=
  let db_hash := cacheDigest sha256hex source
  if pdfContextImports.contains "os" then
    let dbPath := osPathJoin base_db_dir db_hash
    let dbExists := dirNonEmpty fs dbPath
    let fs1 := makedirs fs dbPath
    if !dbExists then
      let content := extract source
      if content = "" then
        ⟨.error (.valueError "No content available to vectorize."), fs1, vs, 1, 1⟩
      else
        let chunks := process_text defaultCfg content none
        match add_documents defaultCfg store vs chunks with
        | (vs1, .error e) => ⟨.error e, fs1, vs1, 1, 1⟩
        | (vs1, .ok _) =>
          ⟨.ok (), fun p => if p = dbPath then some ["chroma.sqlite3"] else fs1 p, vs1, 1, 1⟩
    else
      ⟨.ok (), fs1, vs, 1, 0⟩
  else
    ⟨.error (.nameError "os"), fs, vs, 0, 0⟩

/-- The fixed fallback answer of `WebContext.ask` (line 62) and
`PdfContext.ask` (line 53). -/
def noRelevantDocsMsg : String :=
  "No relevant documents found. Try force_rescrape=True to refresh."

/-- `WebContext.ask` (`web_context.py` lines 59-91), abstracting the
similarity search and the prompted LLM chain; returns the answer and
the number of LLM invocations.  (The `similarity_search_with_score`
diagnostic print does not affect the answer and is elided.) -/
def WebContext.ask (search : String → Nat → List Document) (llm : String → String → String) (question : String) (k : Nat) : String × Nat :=
  let similar_docs := search question k
  if similar_docs.isEmpty then
    (noRelevantDocsMsg, 0)
  else
    let combined_docs := String.intercalate "\n\n" (similar_docs.map Document.page_content)
    ((llm combined_docs question).trim, 1)

/-- `PdfContext.ask` (`pdf_context.py` lines 50-82): identical shape,
joining chunk contents with a single space. -/
def PdfContext.ask (search : String → Nat → List Document) (llm : String → String → String) (question : String) (k : Nat) : String × Nat :=
  let similar_docs := search question k
  if similar_docs.isEmpty then
    (noRelevantDocsMsg, 0)
  else
    let combined_docs := String.intercalate " " (similar_docs.map Document.page_content)
    ((llm combined_docs question).trim, 1)

/-! ## Helper lemmas on the batching machinery -/

lemma sliceBatches_eq_nil_iff {α : Type _} (bs : Nat) (l : List α) :
    sliceBatches bs l = [] ↔ l = [] := by
  cases l with
  | nil => simp [sliceBatches]
  | cons x xs => simp [sliceBatches]

lemma sliceBatches_flatten {α : Type _} (bs : Nat) (hbs : 1 ≤ bs) (l : List α) :
    (sliceBatches bs l).flatten = l := by
  induction l using sliceBatches.induct bs with
  | case1 => simp [sliceBatches]
  | case2 x xs ih =>
    rw [sliceBatches]
    have hdrop : xs.drop (bs - 1) = (x :: xs).drop bs := by
      cases bs with
      | zero => omega
      | succ n => simp
    rw [List.flatten_cons, ih, hdrop, List.take_append_drop]

lemma sliceBatches_length_eq {α : Type _} (bs : Nat) (hbs : 1 ≤ bs) (l : List α) :
    (sliceBatches bs l).length = (l.length + bs - 1) / bs := by
  induction l using sliceBatches.induct bs with
  | case1 =>
    rw [sliceBatches]
    have h0 : (bs - 1) / bs = 0 := Nat.div_eq_of_lt (by omega)
    simp [h0]
  | case2 x xs ih =>
    rw [sliceBatches]
    simp only [List.length_cons, List.length_drop] at ih ⊢
    set n := xs.length + 1 with hn
    rcases le_or_lt n bs with hle | hlt
    · have hz : xs.length - (bs - 1) = 0 := by omega
      rw [hz] at ih
      have h0 : (0 + bs - 1) / bs = 0 := Nat.div_eq_of_lt (by omega)
      rw [h0] at ih
      have h1 : n + bs - 1 = (n - 1) + bs := by omega
      rw [ih, h1, Nat.add_div_right _ (by omega), Nat.div_eq_of_lt (by omega)]
    · have hm : xs.length - (bs - 1) = n - bs := by omega
      rw [hm] at ih
      have h2 : n - bs + bs - 1 = (n - bs - 1) + bs := by omega
      have h3 : n + bs - 1 = (n - 1) + bs := by omega
      have h4 : n - 1 = (n - 1 - bs) + bs := by omega
      have h5 : n - bs - 1 = n - 1 - bs := by omega
      rw [ih, h2, Nat.add_div_right _ (by omega), h3, Nat.add_div_right _ (by omega),
        h4, Nat.add_div_right _ (by omega), h5]

lemma sliceBatches_mem_length {α : Type _} (bs : Nat) (hbs : 1 ≤ bs) (l : List α)
    (b : List α) (hb : b ∈ sliceBatches bs l) : 0 < b.length ∧ b.length ≤ bs := by
  induction l using sliceBatches.induct bs with
  | case1 => simp [sliceBatches] at hb
  | case2 x xs ih =>
    rw [sliceBatches] at hb
    rcases List.mem_cons.mp hb with h | h
    · subst h
      constructor
      · simp [List.length_take]; omega
      · simp [List.length_take]
    · exact ih h

lemma sliceBatches_getD_length {α : Type _} (bs : Nat) (hbs : 1 ≤ bs) (l : List α)
    (i : Nat) (h : i + 1 < (sliceBatches bs l).length) :
    ((sliceBatches bs l).getD i []).length = bs := by
  induction l using sliceBatches.induct bs generalizing i with
  | case1 => rw [sliceBatches] at h; simp at h
  | case2 x xs ih =>
    rw [sliceBatches] at h ⊢
    cases i with
    | zero =>
      simp only [List.length_cons] at h
      have hne : sliceBatches bs (xs.drop (bs - 1)) ≠ [] := by
        intro hnil
        rw [hnil] at h
        simp at h
      have hxs : xs.drop (bs - 1) ≠ [] := by
        intro hnil
        exact hne ((sliceBatches_eq_nil_iff bs _).mpr hnil)
      have hlen : bs - 1 < xs.length := by
        by_contra hc
        exact hxs (List.drop_eq_nil_of_le (by omega))
      simp [List.length_take]
      omega
    | succ j =>
      simp only [List.length_cons] at h
      rw [List.getD_cons_succ]
      exact ih j (by omega)

lemma runBatches_ok (store : StoreFn) (ids : Nat → List Document → List String)
    (hstore : ∀ n b, store n b = .ok (ids n b)) :
    ∀ (batches : List (List Document)) (st : VStore),
    runBatches store st batches =
      ({ st with stored := st.stored ++ batches.flatten, calls := st.calls ++ batches },
       .ok (batchIds ids st.calls.length batches)) := by
  intro batches
  induction batches with
  | nil => intro st; simp [runBatches, batchIds]
  | cons b bsl ih =>
    intro st
    rw [runBatches, hstore]
    simp only
    rw [ih]
    simp [batchIds, List.append_assoc]

lemma runBatches_fail (store : StoreFn) (e : PyErr) :
    ∀ (batches : List (List Document)) (st : VStore) (j : Nat), j < batches.length →
    (∀ n, n < j → ∃ ids, store (st.calls.length + n) (batches.getD n []) = .ok ids) →
    store (st.calls.length + j) (batches.getD j []) = .error e →
    runBatches store st batches =
      ({ st with stored := st.stored ++ (batches.take j).flatten,
                 calls := st.calls ++ batches.take (j + 1) }, .error e) := by
  intro batches
  induction batches with
  | nil => intro st j hj _ _; simp at hj
  | cons b bsl ih =>
    intro st j hj hok herr
    cases j with
    | zero =>
      simp only [List.getD_cons_zero, Nat.add_zero] at herr
      rw [runBatches, herr]
      simp
    | succ j =>
      obtain ⟨ids0, h0⟩ := hok 0 (Nat.succ_pos j)
      simp only [List.getD_cons_zero, Nat.add_zero] at h0
      rw [runBatches, h0]
      simp only
      rw [ih _ j (by simpa using hj)]
      · simp [List.append_assoc]
      · intro n hn
        obtain ⟨idsn, hn'⟩ := hok (n + 1) (by omega)
        refine ⟨idsn, ?_⟩
        simp only [List.getD_cons_succ] at hn'
        simpa [Nat.add_comm, Nat.add_assoc, Nat.add_left_comm] using hn'
      · simp only [List.getD_cons_succ] at herr
        simpa [Nat.add_comm, Nat.add_assoc, Nat.add_left_comm] using herr

lemma pyBatches_flatten (batchSize : Nat) (hbs : 1 ≤ batchSize) (documents : List Document) :
    (pyBatches batchSize documents).flatten = documents := by
  unfold pyBatches
  split
  · simp
  · exact sliceBatches_flatten batchSize hbs documents

lemma batchIds_length (ids : Nat → List Document → List String)
    (hone : ∀ n b, (ids n b).length = b.length) :
    ∀ (batches : List (List Document)) (k : Nat),
    (batchIds ids k batches).length = batches.flatten.length := by
  intro batches
  induction batches with
  | nil => intro k; simp [batchIds]
  | cons b bsl ih => intro k; simp [batchIds, hone, ih]

lemma addDocumentsInBatches_ok (batchSize : Nat) (store : StoreFn)
    (ids : Nat → List Document → List String) (st : VStore) (documents : List Document)
    (hbs : 0 < batchSize) (hstore : ∀ n b, store n b = .ok (ids n b)) :
    addDocumentsInBatches batchSize store st documents =
      ({ st with stored := st.stored ++ documents,
                 calls := st.calls ++ pyBatches batchSize documents },
       .ok (batchIds ids st.calls.length (pyBatches batchSize documents))) := by
  unfold addDocumentsInBatches pyBatches
  split
  · rw [runBatches_ok store ids hstore]
    simp
  · rw [if_neg (by omega), runBatches_ok store ids hstore,
      sliceBatches_flatten batchSize hbs documents]

lemma add_documents_ok (cfg : VectorizerCfg) (store : StoreFn)
    (ids : Nat → List Document → List String) (st : VStore) (documents : List Document)
    (hbs : 0 < cfg.batch_size) (hstore : ∀ n b, store n b = .ok (ids n b)) :
    add_documents cfg store st documents =
      ({ st with stored := st.stored ++ splitDocuments cfg documents,
                 calls := st.calls ++ pyBatches cfg.batch_size (splitDocuments cfg documents),
                 persists := st.persists + 1 },
       .ok (batchIds ids st.calls.length (pyBatches cfg.batch_size (splitDocuments cfg documents)))) := by
  unfold add_documents
  simp only [addDocumentsInBatches_ok cfg.batch_size store ids st (splitDocuments cfg documents) hbs
    hstore]

/-! ## The claims -/

/-- C1: for `N > batch_size > 0` chunks and a store that answers every
call, `_add_documents_in_batches` issues exactly
`ceil(N / batch_size) = (N + batch_size - 1) / batch_size` calls to
`db.add_documents`; every batch has exactly `batch_size` chunks except
possibly the last (all batches are non-empty and within the bound); the
batches partition the input in order; the returned id list is the
concatenation of the per-batch id lists in batch order; and when the
store returns one id per chunk the id list has length `N`. -/
theorem claim_C1 (batchSize : Nat) (store : StoreFn)
    (ids : Nat → List Document → List String)
    (s0 : List Document) (p0 : Nat) (documents : List Document)
    (hbs : 0 < batchSize) (hN : batchSize < documents.length)
    (hstore : ∀ n b, store n b = .ok (ids n b)) :
    let r := addDocumentsInBatches batchSize store ⟨s0, [], p0⟩ documents
    r.1.calls.length = (documents.length + batchSize - 1) / batchSize ∧
    (∀ i, i + 1 < r.1.calls.length → (r.1.calls.getD i []).length = batchSize) ∧
    (∀ b ∈ r.1.calls, 0 < b.length ∧ b.length ≤ batchSize) ∧
    r.1.calls.flatten = documents ∧
    r.2 = .ok (batchIds ids 0 r.1.calls) ∧
    ((∀ n b, (ids n b).length = b.length) →
      ∀ l, r.2 = .ok l → l.length = documents.length) := by
  intro r
  have hr : r = ({ stored := s0 ++ documents,
                   calls := pyBatches batchSize documents, persists := p0 },
                 .ok (batchIds ids 0 (pyBatches batchSize documents))) := by
    show addDocumentsInBatches batchSize store ⟨s0, [], p0⟩ documents = _
    rw [addDocumentsInBatches_ok batchSize store ids ⟨s0, [], p0⟩ documents hbs hstore]
    simp
  have hpy : pyBatches batchSize documents = sliceBatches batchSize documents := by
    unfold pyBatches
    rw [if_neg (by omega)]
  rw [hr]
  refine ⟨?_, ?_, ?_, ?_, ?_, ?_⟩
  · simp only [hpy]
    exact sliceBatches_length_eq batchSize hbs documents
  · intro i hi
    simp only [hpy] at hi ⊢
    exact sliceBatches_getD_length batchSize hbs documents i hi
  · intro b hb
    simp only [hpy] at hb
    exact sliceBatches_mem_length batchSize hbs documents b hb
  · simp only [hpy]
    exact sliceBatches_flatten batchSize hbs documents
  · rfl
  · intro hone l hl
    simp only at hl
    have hinj : l = batchIds ids 0 (pyBatches batchSize documents) := by
      injection hl with h
      exact h.symm
    rw [hinj, batchIds_length ids hone, pyBatches_flatten batchSize hbs]

/-- Closed witness for C1: 5 documents, batch size 2, a store returning
one id per chunk. -/
theorem claim_C1_witness :
    let r := addDocumentsInBatches 2 (fun _ b => .ok (b.map Document.page_content)) ⟨[], [], 0⟩
      [⟨"a", []⟩, ⟨"b", []⟩, ⟨"c", []⟩, ⟨"d", []⟩, ⟨"e", []⟩]
    r.1.calls.length = (([⟨"a", []⟩, ⟨"b", []⟩, ⟨"c", []⟩, ⟨"d", []⟩, ⟨"e", []⟩] : List Document).length + 2 - 1) / 2 ∧
    (∀ i, i + 1 < r.1.calls.length → (r.1.calls.getD i []).length = 2) ∧
    (∀ b ∈ r.1.calls, 0 < b.length ∧ b.length ≤ 2) ∧
    r.1.calls.flatten = [⟨"a", []⟩, ⟨"b", []⟩, ⟨"c", []⟩, ⟨"d", []⟩, ⟨"e", []⟩] ∧
    r.2 = .ok (batchIds (fun _ b => b.map Document.page_content) 0 r.1.calls) ∧
    ((∀ n b, ((fun (_ : Nat) (b : List Document) => b.map Document.page_content) n b).length = b.length) →
      ∀ l, r.2 = .ok l → l.length = ([⟨"a", []⟩, ⟨"b", []⟩, ⟨"c", []⟩, ⟨"d", []⟩, ⟨"e", []⟩] : List Document).length) :=
  claim_C1 2 (fun _ b => .ok (b.map Document.page_content))
    (fun _ b => b.map Document.page_content) [] 0
    [⟨"a", []⟩, ⟨"b", []⟩, ⟨"c", []⟩, ⟨"d", []⟩, ⟨"e", []⟩]
    (by decide) (by decide) (fun _ _ => rfl)

/-- C2: if the store's `add_documents` raises on the `j`-th batch call
(after answering the earlier ones), `_add_documents_in_batches`
propagates that very error to the caller without catching it, the calls
issued are exactly the batches up to and including `j` (none after), and
the committed chunks are exactly those of the batches before `j` —
prior batches remain stored, nothing is rolled back, so the failed call
leaves a partial, non-atomic write. -/
theorem claim_C2 (batchSize : Nat) (store : StoreFn) (e : PyErr)
    (s0 : List Document) (p0 : Nat) (documents : List Document) (j : Nat)
    (hbs : 0 < batchSize)
    (hj : j < (pyBatches batchSize documents).length)
    (hok : ∀ n, n < j → ∃ ids, store n ((pyBatches batchSize documents).getD n []) = .ok ids)
    (herr : store j ((pyBatches batchSize documents).getD j []) = .error e) :
    addDocumentsInBatches batchSize store ⟨s0, [], p0⟩ documents =
      (⟨s0 ++ ((pyBatches batchSize documents).take j).flatten,
        (pyBatches batchSize documents).take (j + 1), p0⟩, .error e) := by
  have heq : addDocumentsInBatches batchSize store ⟨s0, [], p0⟩ documents =
      runBatches store ⟨s0, [], p0⟩ (pyBatches batchSize documents) := by
    unfold addDocumentsInBatches pyBatches
    split
    · rfl
    · rw [if_neg (by omega)]
  rw [heq, runBatches_fail store e (pyBatches batchSize documents) ⟨s0, [], p0⟩ j hj
    (by simpa using hok) (by simpa using herr)]
  simp

/-- Closed witness for C2: three documents, batch size 1, a store that
answers call 0 and raises on call 1 — only calls 0 and 1 are issued and
only batch 0 is committed. -/
theorem claim_C2_witness :
    addDocumentsInBatches 1
        (fun n b => if n = 0 then .ok (b.map Document.page_content) else .error (.valueError "boom"))
        ⟨[], [], 7⟩ [⟨"a", []⟩, ⟨"b", []⟩, ⟨"c", []⟩] =
      (⟨[] ++ ((pyBatches 1 [⟨"a", []⟩, ⟨"b", []⟩, ⟨"c", []⟩]).take 1).flatten,
        (pyBatches 1 [⟨"a", []⟩, ⟨"b", []⟩, ⟨"c", []⟩]).take (1 + 1), 7⟩,
       .error (.valueError "boom")) :=
  claim_C2 1
    (fun n b => if n = 0 then .ok (b.map Document.page_content) else .error (.valueError "boom"))
    (.valueError "boom") [] 7 [⟨"a", []⟩, ⟨"b", []⟩, ⟨"c", []⟩] 1
    (by decide) (by simp [pyBatches, sliceBatches])
    (fun n hn => by
      interval_cases n
      exact ⟨["a"], by simp [pyBatches, sliceBatches]⟩)
    (by simp [pyBatches, sliceBatches])

/-- C3 as stated is false on the code: Python's guard is
`if metadatas and len(metadatas) != len(texts)`, and an *empty*
`metadatas` list is falsy, so for `texts = ["a"]`, `metadatas = []`
(lengths 0 ≠ 1) no `ValidationError` is raised — instead a `Document`
is constructed and handed to the vector store, and the call returns its
ids. -/
theorem claim_C3_counterexample :
    add_texts defaultCfg (fun _ b => .ok (b.map (fun _ => "id"))) ⟨[], [], 0⟩ ["a"] (some []) =
      (⟨[⟨"a", []⟩], [[⟨"a", []⟩]], 1⟩, .ok ["id"]) ∧
    ([] : List Meta).length ≠ (["a"] : List String).length := by
  exact ⟨by decide, by decide⟩

/-- C3 (amended): for every *non-empty* `metadatas` whose length differs
from `texts`, `add_texts` fails with the `ValidationError`
(`ValueError("Length of metadatas must match length of texts")`) and the
vector store is untouched — no embedding or store call is made and no
`Document` is constructed (the returned state is the input state). -/
theorem claim_C3 (cfg : VectorizerCfg) (store : StoreFn) (st : VStore)
    (texts : List String) (metadatas : List Meta)
    (hne : metadatas ≠ []) (hlen : metadatas.length ≠ texts.length) :
    add_texts cfg store st texts (some metadatas) =
      (st, .error (.valueError "Length of metadatas must match length of texts")) := by
  unfold add_texts
  have ht : pyTruthyList (some metadatas) = true := by
    simp [pyTruthyList, hne]
  rw [ht]
  simp [hlen]

/-- Closed witness for C3 (amended): one metadata dict against two
texts. -/
theorem claim_C3_witness :
    add_texts defaultCfg (fun _ b => .ok (b.map (fun _ => "id"))) ⟨[], [], 0⟩ ["a", "b"]
        (some [[("k", "v")]]) =
      (⟨[], [], 0⟩, .error (.valueError "Length of metadatas must match length of texts")) :=
  claim_C3 defaultCfg (fun _ b => .ok (b.map (fun _ => "id"))) ⟨[], [], 0⟩ ["a", "b"]
    [[("k", "v")]] (by decide) (by decide)

/-- C8 as stated is false: the text `" "` is non-empty and within the
chunk budget, yet the Chunker produces zero chunks for it, not one chunk
equal to `" "` — the spec itself fixes this edge case ("empty or
whitespace-only text yields zero chunks"). -/
theorem claim_C8_counterexample :
    process_text defaultCfg " " (some [("source", "a.txt")]) = [] ∧
    (" " : String) ≠ "" ∧ " ".length ≤ defaultCfg.chunk_size := by
  exact ⟨by decide, by decide, by decide⟩

/-- C8 (amended): for every text `T` that is neither empty nor
whitespace-only, with `len(T) ≤ chunk_size`, and every metadata `m`,
`process_text` produces exactly one chunk whose content is `T` and whose
metadata is `m`. -/
theorem claim_C8 (cfg : VectorizerCfg) (T : String) (m : Meta)
    (hws : isWhitespaceOnly T = false) (hlen : T.length ≤ cfg.chunk_size) :
    process_text cfg T (some m) = [⟨T, m⟩] := by
  unfold process_text splitDocuments splitText
  simp [hws, hlen]

/-- Closed witness for C8 (amended). -/
theorem claim_C8_witness :
    process_text defaultCfg "hello" (some [("source", "a.txt")]) =
      [⟨"hello", [("source", "a.txt")]⟩] :=
  claim_C8 defaultCfg "hello" [("source", "a.txt")] (by decide) (by decide)

/-- C5: the cache-key mapping is the pure function
`identifier ↦ base_dir/"sha256(identifier)[:16]"`: `WebContext` and
`PdfContext` compute the same path from the same identifier (so the
same identifier yields the same path across calls and components), the
path is `base_dir` joined with the 16-hex-character digest prefix, and
identifiers whose digest prefixes differ get distinct paths (collisions
require colliding the truncated cryptographic hash). -/
theorem claim_C5 (sha256hex : String → String) (base_dir id1 id2 : String) :
    WebContext.db_path sha256hex base_dir id1 = PdfContext.db_path sha256hex base_dir id1 ∧
    WebContext.db_path sha256hex base_dir id1 = osPathJoin base_dir (cacheDigest sha256hex id1) ∧
    (cacheDigest sha256hex id1 ≠ cacheDigest sha256hex id2 →
      WebContext.db_path sha256hex base_dir id1 ≠ WebContext.db_path sha256hex base_dir id2) := by
  refine ⟨rfl, rfl, fun hd hpath => hd ?_⟩
  unfold WebContext.db_path osPathJoin at hpath
  have hdata := congrArg String.data hpath
  simp only [String.data_append] at hdata
  exact String.ext (List.append_cancel_left hdata)

/-- Closed witness for C5 at a concrete hash function and identifiers
with distinct digests. -/
theorem claim_C5_witness :
    WebContext.db_path (fun s => s ++ "0") "base" "a" =
      PdfContext.db_path (fun s => s ++ "0") "base" "a" ∧
    WebContext.db_path (fun s => s ++ "0") "base" "a" =
      osPathJoin "base" (cacheDigest (fun s => s ++ "0") "a") ∧
    WebContext.db_path (fun s => s ++ "0") "base" "a" ≠
      WebContext.db_path (fun s => s ++ "0") "base" "b" := by
  obtain ⟨h1, h2, h3⟩ := claim_C5 (fun s => s ++ "0") "base" "a" "b"
  exact ⟨h1, h2, h3 (by decide)⟩

/-- C6: when the similarity search returns no documents, both
`WebContext.ask` and `PdfContext.ask` return the fixed fallback message
"No relevant documents found. Try force_rescrape=True to refresh." and
never invoke the LLM callable (zero LLM invocations recorded). -/
theorem claim_C6 (search : String → Nat → List Document) (llm : String → String → String)
    (question : String) (k : Nat) (hempty : search question k = []) :
    WebContext.ask search llm question k = (noRelevantDocsMsg, 0) ∧
    PdfContext.ask search llm question k = (noRelevantDocsMsg, 0) := by
  unfold WebContext.ask PdfContext.ask
  simp [hempty]

/-- Closed witness for C6: a search that finds nothing, an LLM that
would answer if called. -/
theorem claim_C6_witness :
    WebContext.ask (fun _ _ => []) (fun _ _ => "llm answer") "q" 5 = (noRelevantDocsMsg, 0) ∧
    PdfContext.ask (fun _ _ => []) (fun _ _ => "llm answer") "q" 5 = (noRelevantDocsMsg, 0) :=
  claim_C6 (fun _ _ => []) (fun _ _ => "llm answer") "q" 5 rfl

/-- C10: for every source, hash function, extractor, store and prior
state, constructing `PdfContext` raises `NameError` on the unresolved
name `os` (the module never imports it) before any cache-existence
check, any PDF extraction, and any vector-store or file-system
operation: the outcome is the `NameError`, zero cache checks and zero
extractions are recorded, and both the store state and the directory
state are returned untouched.  Consequently no `PdfContext` instance is
ever constructed, so no method of it (including `ask`) is reachable. -/
theorem claim_C10 (sha256hex : String → String) (extract : String → String)
    (store : StoreFn) (source base_db_dir : String) (fs : FileSys) (vs : VStore) :
    pdfInit sha256hex extract store source base_db_dir fs vs =
      ⟨.error (.nameError "os"), fs, vs, 0, 0⟩ :=
  rfl

/-- C7 as stated is false for the PDF entrypoint: with an absent cache
directory and an adapter that would return empty text, `PdfContext`
fails with `NameError` on `os`, not with the domain
`ValueError("No content available to vectorize.")`. -/
theorem claim_C7_counterexample :
    (pdfInit (fun s => s) (fun _ => "") (fun _ _ => .ok []) "doc.pdf" "directory_chroma_dbs"
        (fun _ => none) ⟨[], [], 0⟩).outcome = .error (.nameError "os") ∧
    PyErr.nameError "os" ≠ PyErr.valueError "No content available to vectorize." := by
  exact ⟨rfl, by decide⟩

/-- C7 (amended): for the web entrypoint, on an uncached source (cache
directory absent/empty, or force-refresh requested), empty extracted
text makes `WebContext.__init__` fail with the domain
`ValueError("No content available to vectorize.")` and the vector store
is untouched (no chunk is persisted, no embedding or persist call is
made); the PDF entrypoint instead fails with `NameError` on `os` before
its adapter ever runs, likewise touching nothing. -/
theorem claim_C7 (cfg : VectorizerCfg) (sha256hex : String → String)
    (scrape : String → ScrapeResult) (extract : String → String) (store : StoreFn)
    (url source base_db_dir : String) (force_rescrape : Bool)
    (fs fs2 : FileSys) (vs vs2 : VStore)
    (huncached : force_rescrape = true ∨
      dirNonEmpty fs (WebContext.db_path sha256hex base_db_dir url) = false)
    (hempty : (scrape url).text = "") :
    (webInit cfg sha256hex scrape store url base_db_dir force_rescrape fs vs).outcome =
      .error (.valueError "No content available to vectorize.") ∧
    (webInit cfg sha256hex scrape store url base_db_dir force_rescrape fs vs).vs = vs ∧
    (pdfInit sha256hex extract store source base_db_dir fs2 vs2).outcome =
      .error (.nameError "os") ∧
    (pdfInit sha256hex extract store source base_db_dir fs2 vs2).extracts = 0 ∧
    (pdfInit sha256hex extract store source base_db_dir fs2 vs2).vs = vs2 := by
  have hcond : (force_rescrape ||
      !dirNonEmpty fs (WebContext.db_path sha256hex base_db_dir url)) = true := by
    rcases huncached with h | h <;> simp [h]
  have hweb : webInit cfg sha256hex scrape store url base_db_dir force_rescrape fs vs =
      { fs := makedirs fs (WebContext.db_path sha256hex base_db_dir url), vs := vs,
        scrapes := 1,
        outcome := .error (.valueError "No content available to vectorize.") } := by
    unfold webInit
    simp only [hcond, if_true, hempty, if_pos]
  rw [hweb]
  exact ⟨rfl, rfl, rfl, rfl, rfl⟩

/-- Closed witness for C7 (amended): absent cache directory, scraper
finds no text. -/
theorem claim_C7_witness :
    (webInit defaultCfg (fun s => s) (fun _ => ⟨false, "", []⟩) (fun _ _ => .ok []) "http://x" "web_chroma_dbs"
        false (fun _ => none) ⟨[], [], 0⟩).outcome =
      .error (.valueError "No content available to vectorize.") ∧
    (webInit defaultCfg (fun s => s) (fun _ => ⟨false, "", []⟩) (fun _ _ => .ok []) "http://x" "web_chroma_dbs"
        false (fun _ => none) ⟨[], [], 0⟩).vs = ⟨[], [], 0⟩ ∧
    (pdfInit (fun s => s) (fun _ => "") (fun _ _ => .ok []) "doc.pdf" "web_chroma_dbs"
        (fun _ => none) ⟨[], [], 0⟩).outcome = .error (.nameError "os") ∧
    (pdfInit (fun s => s) (fun _ => "") (fun _ _ => .ok []) "doc.pdf" "web_chroma_dbs"
        (fun _ => none) ⟨[], [], 0⟩).extracts = 0 ∧
    (pdfInit (fun s => s) (fun _ => "") (fun _ _ => .ok []) "doc.pdf" "web_chroma_dbs"
        (fun _ => none) ⟨[], [], 0⟩).vs = ⟨[], [], 0⟩ :=
  claim_C7 defaultCfg (fun s => s) (fun _ => ⟨false, "", []⟩) (fun _ => "") (fun _ _ => .ok [])
    "http://x" "doc.pdf" "web_chroma_dbs" false (fun _ => none) (fun _ => none)
    ⟨[], [], 0⟩ ⟨[], [], 0⟩ (Or.inr rfl) rfl

lemma webInit_miss_ok (cfg : VectorizerCfg) (sha256hex : String → String)
    (scrape : String → ScrapeResult) (store : StoreFn)
    (ids : Nat → List Document → List String) (url base_db_dir : String)
    (fs : FileSys) (vs : VStore)
    (hbs : 0 < cfg.batch_size)
    (hstore : ∀ n b, store n b = .ok (ids n b))
    (hmiss : dirNonEmpty fs (WebContext.db_path sha256hex base_db_dir url) = false)
    (htext : ¬(scrape url).text = "") :
    webInit cfg sha256hex scrape store url base_db_dir false fs vs =
      { fs := fun p => if p = WebContext.db_path sha256hex base_db_dir url
                then some ["chroma.sqlite3"]
                else makedirs fs (WebContext.db_path sha256hex base_db_dir url) p,
        vs := { stored := vs.stored ++ splitDocuments cfg (process_text cfg (scrape url).text none),
                calls := vs.calls ++
                  pyBatches cfg.batch_size (splitDocuments cfg (process_text cfg (scrape url).text none)),
                persists := vs.persists + 1 },
        scrapes := 1, outcome := .ok () } := by
  unfold webInit
  simp only [hmiss, Bool.not_false, Bool.or_true, Bool.false_or, if_true, htext, ite_false,
    add_documents_ok cfg store ids vs (process_text cfg (scrape url).text none) hbs hstore]

lemma webInit_hit (cfg : VectorizerCfg) (sha256hex : String → String)
    (scrape : String → ScrapeResult) (store : StoreFn) (url base_db_dir : String)
    (fs : FileSys) (vs : VStore)
    (hhit : dirNonEmpty fs (WebContext.db_path sha256hex base_db_dir url) = true) :
    webInit cfg sha256hex scrape store url base_db_dir false fs vs =
      { fs := makedirs fs (WebContext.db_path sha256hex base_db_dir url), vs := vs,
        scrapes := 0, outcome := .ok () } := by
  unfold webInit
  simp only [hhit, Bool.not_true, Bool.or_false, Bool.false_or, ite_false]
  simp

/-- C4: ingesting a web source whose cache directory is absent or empty
(first call, `force_rescrape=False`, non-empty scraped text, store
answering every call) succeeds and invokes the scraper once; running the
same constructor again on the resulting state performs zero scraper
fetches and zero embedding/persistence work — the vector-store state
(stored chunks, `add_documents` calls, `persist` count) is exactly the
state the first call left, and the second call merely opens the existing
store and succeeds. -/
theorem claim_C4 (cfg : VectorizerCfg) (sha256hex : String → String)
    (scrape : String → ScrapeResult) (store : StoreFn)
    (ids : Nat → List Document → List String) (url base_db_dir : String)
    (fs : FileSys) (vs : VStore)
    (hbs : 0 < cfg.batch_size)
    (hstore : ∀ n b, store n b = .ok (ids n b))
    (hmiss : dirNonEmpty fs (WebContext.db_path sha256hex base_db_dir url) = false)
    (htext : ¬(scrape url).text = "") :
    (webInit cfg sha256hex scrape store url base_db_dir false fs vs).outcome = .ok () ∧
    (webInit cfg sha256hex scrape store url base_db_dir false fs vs).scrapes = 1 ∧
    (webInit cfg sha256hex scrape store url base_db_dir false
        (webInit cfg sha256hex scrape store url base_db_dir false fs vs).fs
        (webInit cfg sha256hex scrape store url base_db_dir false fs vs).vs).scrapes = 0 ∧
    (webInit cfg sha256hex scrape store url base_db_dir false
        (webInit cfg sha256hex scrape store url base_db_dir false fs vs).fs
        (webInit cfg sha256hex scrape store url base_db_dir false fs vs).vs).vs =
      (webInit cfg sha256hex scrape store url base_db_dir false fs vs).vs ∧
    (webInit cfg sha256hex scrape store url base_db_dir false
        (webInit cfg sha256hex scrape store url base_db_dir false fs vs).fs
        (webInit cfg sha256hex scrape store url base_db_dir false fs vs).vs).outcome = .ok () := by
  have h1 := webInit_miss_ok cfg sha256hex scrape store ids url base_db_dir fs vs hbs hstore
    hmiss htext
  rw [h1]
  have hhit : dirNonEmpty
      (fun p => if p = WebContext.db_path sha256hex base_db_dir url
        then some ["chroma.sqlite3"]
        else makedirs fs (WebContext.db_path sha256hex base_db_dir url) p)
      (WebContext.db_path sha256hex base_db_dir url) = true := by
    simp [dirNonEmpty]
  rw [webInit_hit cfg sha256hex scrape store url base_db_dir _ _ hhit]
  exact ⟨rfl, rfl, rfl, rfl, rfl⟩

/-- Closed witness for C4: a fresh cache, a scraper returning "hello",
a store returning one id per chunk. -/
theorem claim_C4_witness :
    (webInit defaultCfg (fun s => s) (fun _ => ⟨true, "hello", []⟩)
        (fun _ b => .ok (b.map Document.page_content)) "http://x" "web_chroma_dbs" false
        (fun _ => none) ⟨[], [], 0⟩).outcome = .ok () ∧
    (webInit defaultCfg (fun s => s) (fun _ => ⟨true, "hello", []⟩)
        (fun _ b => .ok (b.map Document.page_content)) "http://x" "web_chroma_dbs" false
        (fun _ => none) ⟨[], [], 0⟩).scrapes = 1 ∧
    (webInit defaultCfg (fun s => s) (fun _ => ⟨true, "hello", []⟩)
        (fun _ b => .ok (b.map Document.page_content)) "http://x" "web_chroma_dbs" false
        (webInit defaultCfg (fun s => s) (fun _ => ⟨true, "hello", []⟩)
          (fun _ b => .ok (b.map Document.page_content)) "http://x" "web_chroma_dbs" false
          (fun _ => none) ⟨[], [], 0⟩).fs
        (webInit defaultCfg (fun s => s) (fun _ => ⟨true, "hello", []⟩)
          (fun _ b => .ok (b.map Document.page_content)) "http://x" "web_chroma_dbs" false
          (fun _ => none) ⟨[], [], 0⟩).vs).scrapes = 0 ∧
    (webInit defaultCfg (fun s => s) (fun _ => ⟨true, "hello", []⟩)
        (fun _ b => .ok (b.map Document.page_content)) "http://x" "web_chroma_dbs" false
        (webInit defaultCfg (fun s => s) (fun _ => ⟨true, "hello", []⟩)
          (fun _ b => .ok (b.map Document.page_content)) "http://x" "web_chroma_dbs" false
          (fun _ => none) ⟨[], [], 0⟩).fs
        (webInit defaultCfg (fun s => s) (fun _ => ⟨true, "hello", []⟩)
          (fun _ b => .ok (b.map Document.page_content)) "http://x" "web_chroma_dbs" false
          (fun _ => none) ⟨[], [], 0⟩).vs).vs =
      (webInit defaultCfg (fun s => s) (fun _ => ⟨true, "hello", []⟩)
        (fun _ b => .ok (b.map Document.page_content)) "http://x" "web_chroma_dbs" false
        (fun _ => none) ⟨[], [], 0⟩).vs ∧
    (webInit defaultCfg (fun s => s) (fun _ => ⟨true, "hello", []⟩)
        (fun _ b => .ok (b.map Document.page_content)) "http://x" "web_chroma_dbs" false
        (webInit defaultCfg (fun s => s) (fun _ => ⟨true, "hello", []⟩)
          (fun _ b => .ok (b.map Document.page_content)) "http://x" "web_chroma_dbs" false
          (fun _ => none) ⟨[], [], 0⟩).fs
        (webInit defaultCfg (fun s => s) (fun _ => ⟨true, "hello", []⟩)
          (fun _ b => .ok (b.map Document.page_content)) "http://x" "web_chroma_dbs" false
          (fun _ => none) ⟨[], [], 0⟩).vs).outcome = .ok () :=
  claim_C4 defaultCfg (fun s => s) (fun _ => ⟨true, "hello", []⟩)
    (fun _ b => .ok (b.map Document.page_content)) (fun _ b => b.map Document.page_content)
    "http://x" "web_chroma_dbs" (fun _ => none) ⟨[], [], 0⟩
    (by decide) (fun _ _ => rfl) rfl (by decide)

lemma add_texts_kept (cfg : VectorizerCfg) (store : StoreFn) (st : VStore)
    (kept : List (String × Meta)) (hne : kept ≠ []) :
    add_texts cfg store st (kept.map Prod.fst) (some (kept.map Prod.snd)) =
      add_documents cfg store st (kept.map (fun p => (⟨p.1, p.2⟩ : Document))) := by
  unfold add_texts
  have ht : pyTruthyList (some (kept.map Prod.snd)) = true := by
    simp [pyTruthyList, hne]
  have hguard : (((some (kept.map Prod.snd)).getD []).length != (kept.map Prod.fst).length) = false := by
    simp
  rw [ht, hguard]
  simp [List.zip_map', List.map_map]

/-- C9: when the `DocumentVectorizer` was constructed without a SQLite
path (or with an empty one), `ingest_from_sqlite` fails with the
configuration error "SQLite path is not set." before any connection is
opened or row fetched (trace `⟨0, 0⟩`, state untouched); likewise
"Content column must be specified." when the content column is missing;
and when both are configured, the chunks added to the vector store are
exactly the chunks of the rows whose content column is non-empty —
empty-content rows are dropped before any embedding/persistence work. -/
theorem claim_C9 (cfg : VectorizerCfg) (store : StoreFn)
    (ids : Nat → List Document → List String) (st : VStore)
    (fetchRows : String → List String → List (List String)) (table_name : String)
    (hbs : 0 < cfg.batch_size) (hstore : ∀ n b, store n b = .ok (ids n b)) :
    (pyFalsyOptStr cfg.sqlite_path = true →
      ingest_from_sqlite cfg store st fetchRows table_name =
        (⟨0, 0⟩, st, .error (.valueError "SQLite path is not set."))) ∧
    (pyFalsyOptStr cfg.sqlite_path = false → pyFalsyOptStr cfg.content_column = true →
      ingest_from_sqlite cfg store st fetchRows table_name =
        (⟨0, 0⟩, st, .error (.valueError "Content column must be specified."))) ∧
    (pyFalsyOptStr cfg.sqlite_path = false → pyFalsyOptStr cfg.content_column = false →
      (ingest_from_sqlite cfg store st fetchRows table_name).2.1.stored =
        st.stored ++ splitDocuments cfg
          ((keptRows cfg (fetchRows table_name (cfg.content_column.getD "" :: cfg.metadata_columns))).map
            (fun p => (⟨p.1, p.2⟩ : Document)))) := by
  refine ⟨?_, ?_, ?_⟩
  · intro h
    unfold ingest_from_sqlite
    simp [h]
  · intro h1 h2
    unfold ingest_from_sqlite
    simp [h1, h2]
  · intro h1 h2
    unfold ingest_from_sqlite
    simp only [h1, h2, Bool.false_eq_true, ite_false]
    by_cases hempty :
      keptRows cfg (fetchRows table_name (cfg.content_column.getD "" :: cfg.metadata_columns)) = []
    · simp [hempty, splitDocuments]
    · have hfe : ((keptRows cfg (fetchRows table_name
          (cfg.content_column.getD "" :: cfg.metadata_columns))).map Prod.fst).isEmpty = false := by
        simp [hempty]
      simp only [hfe, Bool.false_eq_true, ite_false,
        add_texts_kept cfg store st _ hempty,
        add_documents_ok cfg store ids st _ hbs hstore]

/-- Closed witness for C9: a missing path, a missing content column, and
a configured ingestion over two rows, one of which has empty content. -/
theorem claim_C9_witness :
    ingest_from_sqlite { sqlite_path := none, content_column := some "c" }
        (fun _ b => .ok (b.map Document.page_content)) ⟨[], [], 0⟩
        (fun _ _ => [["t", "x"], ["", "y"]]) "files" =
      (⟨0, 0⟩, ⟨[], [], 0⟩, .error (.valueError "SQLite path is not set.")) ∧
    ingest_from_sqlite { sqlite_path := some "db", content_column := none }
        (fun _ b => .ok (b.map Document.page_content)) ⟨[], [], 0⟩
        (fun _ _ => [["t", "x"], ["", "y"]]) "files" =
      (⟨0, 0⟩, ⟨[], [], 0⟩, .error (.valueError "Content column must be specified.")) ∧
    (ingest_from_sqlite { sqlite_path := some "db", content_column := some "c", metadata_columns := ["m"] }
        (fun _ b => .ok (b.map Document.page_content)) ⟨[], [], 0⟩
        (fun _ _ => [["t", "x"], ["", "y"]]) "files").2.1.stored =
      ([] : List Document) ++ splitDocuments
        { sqlite_path := some "db", content_column := some "c", metadata_columns := ["m"] }
        ((keptRows { sqlite_path := some "db", content_column := some "c", metadata_columns := ["m"] }
          ((fun (_ : String) (_ : List String) => [["t", "x"], ["", "y"]]) "files"
            (({ sqlite_path := some "db", content_column := some "c", metadata_columns := ["m"]} : VectorizerCfg).content_column.getD "" ::
              ({ sqlite_path := some "db", content_column := some "c", metadata_columns := ["m"]} : VectorizerCfg).metadata_columns))).map
          (fun p => (⟨p.1, p.2⟩ : Document))) :=
  ⟨(claim_C9 { sqlite_path := none, content_column := some "c" }
      (fun _ b => .ok (b.map Document.page_content)) (fun _ b => b.map Document.page_content)
      ⟨[], [], 0⟩ (fun _ _ => [["t", "x"], ["", "y"]]) "files" (by decide) (fun _ _ => rfl)).1 rfl,
   (claim_C9 { sqlite_path := some "db", content_column := none }
      (fun _ b => .ok (b.map Document.page_content)) (fun _ b => b.map Document.page_content)
      ⟨[], [], 0⟩ (fun _ _ => [["t", "x"], ["", "y"]]) "files" (by decide) (fun _ _ => rfl)).2.1 rfl rfl,
   (claim_C9 { sqlite_path := some "db", content_column := some "c", metadata_columns := ["m"] }
      (fun _ b => .ok (b.map Document.page_content)) (fun _ b => b.map Document.page_content)
      ⟨[], [], 0⟩ (fun _ _ => [["t", "x"], ["", "y"]]) "files" (by decide) (fun _ _ => rfl)).2.2 rfl rfl⟩
